import Mathlib

/-!
Verification development for `pdf_repair.py`, a PDF repair utility built on an
external document engine (PyMuPDF) and an external OCR engine (pytesseract).

The per-page repair pipeline of `build_repaired_pdf`, the classifier
`page_has_text`, the blank-page pruning step, the metadata merge, the report
object `RepairReport`, and the driver `main` are shallowly embedded below.
External engine calls are modelled by their observable outcome recorded in the
input (`SrcPage` / `MainCfg` flags): an `Option`/`Except` value stands for a
call that either returns a value or raises, and a `Bool` flag stands for a call
that either succeeds or raises.  Python's `str.strip()` is modelled by
`stripChars` on the character list of a string (whitespace removed from both
ends), and Python's `x or y` on strings by `pyOr` (`None` and `""` are falsy).
-/

namespace PdfRepair

/-- Python `str.strip()` on the character list: drop whitespace from both ends. -/
def stripChars (l : List Char) : List Char :=
  ((l.dropWhile Char.isWhitespace).reverse.dropWhile Char.isWhitespace).reverse

/-- One source page, described by the observable outcomes of the engine calls
made on it during one iteration of the per-page loop of `build_repaired_pdf`:

* `getText`: result of `page.get_text("text")`; `none` means the call raises.
* `insertPdfOk`: whether `new_doc.insert_pdf(src_doc, from_page=i, to_page=i)`
  succeeds (line 221).
* `ocr`: joint result of `ocr_page_to_pdf_bytes` plus `fitz.open("pdf", ...)`
  (lines 230-231): an error message if any of it raises, otherwise the list of
  pages of the OCR-produced document (each page given by the result its own
  later `get_text` would have, `none` when that extraction raises).
* `pixmapOk`: whether `page.get_pixmap(matrix=mat, alpha=False)` succeeds at the
  image-insertion call sites (lines 242 and 254).
* `newPageOk`: whether `new_doc.new_page(...)` succeeds (line 255).
* `insertImageOk`: whether `pix.tobytes("png")` plus `insert_image` on the
  freshly created page succeed (line 256). -/
structure SrcPage where
  getText : Option String
  insertPdfOk : Bool := true
  ocr : Except String (List (Option String)) := Except.error "pytesseract not available"
  pixmapOk : Bool := true
  newPageOk : Bool := true
  insertImageOk : Bool := true
deriving Repr

/-- Classifier `page_has_text` (lines 164-172): `True` iff `page.get_text`
returns without raising and the text is truthy and has a truthy `strip()`;
any exception yields `False`. -/
def page_has_text (p : SrcPage) : Bool :=
  match p.getText with
  | some txt => !txt.data.isEmpty && !(stripChars txt.data).isEmpty
  | none => false

/-- Provenance tag for a page of the output document. -/
inductive PageKind
  | copied     -- inserted via `insert_pdf` from the source (line 221)
  | ocrPage    -- inserted via `insert_pdf` from the OCR-produced document (line 233)
  | imagePage  -- `new_page` plus successful `insert_image` (lines 255-256)
  | blankPage  -- `new_page` succeeded but drawing the image then raised
deriving DecidableEq, Repr

/-- One page of the output document `new_doc`: the source iteration that
appended it, how it was produced, and what `get_text` on it returns
(`none` when that extraction raises). -/
structure OutPage where
  srcIdx : Nat
  kind : PageKind
  text : Option String
deriving DecidableEq, Repr

/-- The `page_info` dict accumulated for one source page (lines 217-278).
Fields keep the dict keys of the source; a `none` / `false` default models
an absent key. -/
structure PageInfo where
  page_index : Nat
  action : String
  text_chars : Option Nat := none
  ocr : Option String := none
  fallback_image_inserted : Bool := false
  fallback_error : Option String := none
  image_inserted : Bool := false
  image_error : Option String := none
  removed_blank : Bool := false
deriving DecidableEq, Repr

/-- Outcome of an attempted raw-image insertion. -/
inductive ImgOutcome
  | ok                       -- page appended with the rasterized image
  | errAfterPage (e : String) -- a page was appended, then drawing the image raised
  | errNoPage (e : String)    -- raised before any page was appended
deriving DecidableEq, Repr

/-- The no-OCR image insertion (lines 252-256): rasterize, create a fresh page,
draw the bitmap onto it.  The page is created before the bitmap is drawn, so a
failure of the drawing step leaves an empty page in the document. -/
def insert_image_page (i : Nat) (p : SrcPage) : List OutPage × ImgOutcome :=
  if !p.pixmapOk then ([], .errNoPage "get_pixmap failed")
  else if !p.newPageOk then ([], .errNoPage "new_page failed")
  else if !p.insertImageOk then
    ([⟨i, .blankPage, some ""⟩], .errAfterPage "insert_image failed")
  else ([⟨i, .imagePage, some ""⟩], .ok)

/-- The OCR-failure fallback insertion (lines 241-243).  The code evaluates
`new_doc.insert_image(...)`: attribute lookup on the callable happens before
the arguments are evaluated, and `insert_image` is a method of `Page`, not of
`Document` (the no-OCR branch uses it correctly on the page returned by
`new_page`).  So after the rasterization of line 242 the call raises
`AttributeError` before `new_page` ever runs, and no page is appended. -/
def insert_image_fallback (_i : Nat) (p : SrcPage) : List OutPage × ImgOutcome :=
  if !p.pixmapOk then ([], .errNoPage "get_pixmap failed")
  else ([], .errNoPage "AttributeError: Document object has no attribute insert_image")

/-- Result of the insertion part of one loop iteration (lines 216-261):
the pages appended to `new_doc`, the `page_info` dict so far, and the error
messages logged by `report.add_error` along the way. -/
structure InsertResult where
  delta : List OutPage
  info : PageInfo
  errs : List String
deriving Repr

/-- Insertion part of one loop iteration of `build_repaired_pdf`
(lines 216-261): classify, then copy / OCR / image-insert.  Returns `none`
when an exception escapes the inner handlers (only `insert_pdf` on the copied
path can do that: every other failing call there sits inside a `try`). -/
def insertPhase (use_ocr : Bool) (i : Nat) (p : SrcPage) : Option InsertResult :=
  if page_has_text p then
    if p.insertPdfOk then
      some { delta := [⟨i, .copied, p.getText⟩]
           , info := { page_index := i+1, action := "copied"
                     , text_chars := some ((p.getText.getD "").length) }
           , errs := [] }
    else none
  else
    if use_ocr then
      match p.ocr with
      | .ok ts =>
          some { delta := ts.map (fun t => ⟨i, .ocrPage, t⟩)
               , info := { page_index := i+1, action := "no_text", ocr := some "applied" }
               , errs := [] }
      | .error e =>
          match insert_image_fallback i p with
          | (delta, .ok) =>
              some { delta := delta
                   , info := { page_index := i+1, action := "no_text"
                             , ocr := some ("failed: " ++ e)
                             , fallback_image_inserted := true }
                   , errs := ["OCR failed: " ++ e] }
          | (delta, .errAfterPage e2) =>
              some { delta := delta
                   , info := { page_index := i+1, action := "no_text"
                             , ocr := some ("failed: " ++ e)
                             , fallback_error := some e2 }
                   , errs := ["OCR failed: " ++ e, "fallback image insert failed: " ++ e2] }
          | (delta, .errNoPage e2) =>
              some { delta := delta
                   , info := { page_index := i+1, action := "no_text"
                             , ocr := some ("failed: " ++ e)
                             , fallback_error := some e2 }
                   , errs := ["OCR failed: " ++ e, "fallback image insert failed: " ++ e2] }
    else
      match insert_image_page i p with
      | (delta, .ok) =>
          some { delta := delta
               , info := { page_index := i+1, action := "no_text", image_inserted := true }
               , errs := [] }
      | (delta, .errAfterPage e2) =>
          some { delta := delta
               , info := { page_index := i+1, action := "no_text", image_error := some e2 }
               , errs := ["image insertion failed: " ++ e2] }
      | (delta, .errNoPage e2) =>
          some { delta := delta
               , info := { page_index := i+1, action := "no_text", image_error := some e2 }
               , errs := ["image insertion failed: " ++ e2] }

/-- Blank-page pruning step (lines 262-275), run on the document as it stands
after the insertion part of the iteration.  `last_page = new_doc[-1]` sits
before the inner `try`, so on an empty document the index error escapes to the
per-page handler: this is the `(doc, none, none)` case.  Otherwise the last
page is inspected: text extraction raising is caught by the inner handler and
the page is kept; empty-after-strip text deletes the last page and flags
`removed_blank`.  The third component reports which page (by the iteration
that appended it) was inspected. -/
def prunePhase (remove_blank : Bool) (doc : List OutPage) (info : PageInfo) :
    List OutPage × Option PageInfo × Option Nat :=
  if remove_blank then
    match doc.getLast? with
    | none => (doc, none, none)
    | some lp =>
      match lp.text with
      | some t =>
          if (stripChars t.data).isEmpty then
            (doc.dropLast, some { info with removed_blank := true }, some lp.srcIdx)
          else (doc, some info, some lp.srcIdx)
      | none => (doc, some info, some lp.srcIdx)
  else (doc, some info, none)

/-- What one loop iteration leaves behind besides the document: the recorded
`page_info` (absent when an exception escaped to the per-page handler before
`report.add_page_entry`, line 278), which output page the prune step
inspected, whether the iteration escaped to the per-page handler, and the
error messages logged. -/
structure StepLog where
  info : Option PageInfo
  inspected : Option Nat
  escaped : Bool
  errs : List String
deriving Repr

/-- One full iteration of the per-page loop (lines 214-282): insertion phase,
then pruning, then `report.add_page_entry` unless an exception escaped first;
an escaping exception is caught by the per-page handler, logged, and the loop
moves on. -/
def processPage (use_ocr remove_blank : Bool) (i : Nat) (p : SrcPage)
    (doc : List OutPage) : List OutPage × StepLog :=
  match insertPhase use_ocr i p with
  | none =>
      (doc, { info := none, inspected := none, escaped := true
            , errs := ["Processing page failed"] })
  | some ir =>
      match prunePhase remove_blank (doc ++ ir.delta) ir.info with
      | (doc2, some info2, insp) =>
          (doc2, { info := some info2, inspected := insp, escaped := false
                 , errs := ir.errs })
      | (doc2, none, insp) =>
          (doc2, { info := none, inspected := insp, escaped := true
                 , errs := ir.errs ++ ["Processing page failed"] })

/-- The per-page loop of `build_repaired_pdf`, iteration index threaded
explicitly. -/
def buildLoop (use_ocr remove_blank : Bool) :
    Nat → List SrcPage → List OutPage → List OutPage × List StepLog
  | _, [], doc => (doc, [])
  | i, p :: ps, doc =>
      let r := processPage use_ocr remove_blank i p doc
      let rest := buildLoop use_ocr remove_blank (i+1) ps r.1
      (rest.1, r.2 :: rest.2)

/-- The per-page loop started on the empty `new_doc` at page index 0. -/
def buildPages (use_ocr remove_blank : Bool) (ps : List SrcPage) :
    List OutPage × List StepLog :=
  buildLoop use_ocr remove_blank 0 ps []

/-- The `pages` list of the report: one entry per iteration that reached
`report.add_page_entry`. -/
def report_pages (logs : List StepLog) : List PageInfo :=
  logs.filterMap (fun l => l.info)

/-- The metadata dictionary of the source document, as `doc.metadata` exposes
it: `none` models an absent key, `some ""` an empty value (both are falsy for
Python's `or`). -/
structure PdfMeta where
  title : Option String
  author : Option String
  subject : Option String
  keywords : Option String
  creator : Option String
  producer : Option String
deriving Repr

/-- Python truthiness of `meta.get(key)`: `None` and `""` are falsy. -/
def truthyStr : Option String → Option String
  | none => none
  | some s => if s.data.isEmpty then none else some s

/-- Python `a or dflt` for `a` an optional string and `dflt` a string. -/
def pyOr (a : Option String) (dflt : String) : String :=
  (truthyStr a).getD dflt

/-- The `meta_fixed` dictionary handed to `new_doc.set_metadata`. -/
structure FixedMeta where
  title : String
  author : String
  subject : String
  keywords : String
  creator : String
  producer : String
deriving Repr

/-- Metadata merge of `build_repaired_pdf` (lines 284-297): each key of
`meta_fixed` resolved exactly as in the source, with `input_pdf_path.stem`
passed in as `stem`. -/
def meta_fixed (stem : String) (m : PdfMeta) : FixedMeta :=
  { title := pyOr m.title (stem ++ " (repaired)")
  , author := pyOr m.author "RepairedByScript"
  , subject := pyOr m.subject ""
  , keywords := pyOr m.keywords ""
  , creator := pyOr m.creator (pyOr m.producer "pdf_repair.py")
  , producer := pyOr m.producer (pyOr m.creator "") }

/-- The `RepairReport.data` dictionary: append-only lists of action and error
messages plus the per-page entries. -/
structure ReportData where
  input_path : String
  actions : List String
  errors : List String
  pages : List PageInfo
deriving Repr

/-- `RepairReport.save` (lines 85-91): the whole body sits inside
`try/except Exception`, so the method is total — a failing JSON write is only
printed.  `writeOk` is the outcome of the write; on success the method appends
one more action entry, on failure the data is left untouched. -/
def report_save (writeOk : Bool) (d : ReportData) : ReportData :=
  if writeOk then { d with actions := d.actions ++ ["Saved JSON report"] } else d

/-- One invocation of the program: the per-page inputs plus the observable
outcomes of the run-level engine calls.

* `backupOk`: `backup_file` (called at line 342) succeeds.
* `resaveOk`: `try_simple_repair` (line 348) succeeds.
* `openOk`: `fitz.open` at the start of `build_repaired_pdf` (line 202)
  succeeds; that call is not guarded inside the function, so failure raises
  out of it.
* `setMetaOk`: `new_doc.set_metadata` (line 297) succeeds.
* `finalSaveOk`: `new_doc.save` (line 305) succeeds.
* `reportWriteOk`: the JSON write inside `RepairReport.save` succeeds. -/
structure MainCfg where
  use_ocr : Bool
  remove_blank : Bool
  srcPages : List SrcPage
  meta : PdfMeta
  stem : String
  backupOk : Bool
  resaveOk : Bool
  openOk : Bool
  setMetaOk : Bool
  finalSaveOk : Bool
  reportWriteOk : Bool
deriving Repr

/-- What one call of `build_repaired_pdf` leaves behind: the actions and errors
it appended to the report, the page entries, the output document, the metadata
applied, and whether the call returned normally (`ok = false` means an
exception escaped: either `fitz.open` failed at line 202, or the final save
failed — the save failure is logged at line 308 and then re-raised at
line 309). -/
structure BuildOut where
  acts : List String
  errs : List String
  pages : List PageInfo
  doc : List OutPage
  metaApplied : Option FixedMeta
  ok : Bool
deriving Repr

/-- `build_repaired_pdf` (lines 191-312) at the run level: open the source,
run the per-page loop, merge metadata (failure logged, non-fatal, line 299),
save (failure logged and re-raised). -/
def build_repaired_pdf (c : MainCfg) : BuildOut :=
  if !c.openOk then
    { acts := ["Opening source PDF"], errs := [], pages := [], doc := []
    , metaApplied := none, ok := false }
  else
    let r := buildPages c.use_ocr c.remove_blank c.srcPages
    let pageErrs := (r.2.map (fun l => l.errs)).flatten
    let metaErrs : List String :=
      if c.setMetaOk then [] else ["Failed to set metadata on final doc"]
    let saveErrs : List String :=
      if c.finalSaveOk then [] else ["Failed saving final PDF"]
    { acts := ["Opening source PDF"]
    , errs := pageErrs ++ metaErrs ++ saveErrs
    , pages := report_pages r.2
    , doc := r.1
    , metaApplied := if c.setMetaOk then some (meta_fixed c.stem c.meta) else none
    , ok := c.finalSaveOk }

/-- What `main` leaves behind: the report as last touched by
`RepairReport.save`, whether `build_repaired_pdf` returned normally, and the
fact that the `report.save` call site was reached. -/
structure RunResult where
  report : ReportData
  buildOk : Bool
  reportSaveCalled : Bool
deriving Repr

/-- `main` (lines 329-371): backup (failure caught at line 343 and logged),
`try_simple_repair` (failure caught at line 350, run continues on the original
input), `build_repaired_pdf` (any escaping exception caught at line 361 and
logged as `Overall repair failed`), then `report.save` — reached
unconditionally, since each preceding step is wrapped in its own handler. -/
def main (c : MainCfg) : RunResult :=
  let e1 : List String := if c.backupOk then [] else ["Backup failed"]
  let a1 : List String := if c.backupOk then ["Backed up original"] else []
  let e2 : List String := if c.resaveOk then [] else ["Simple resave failed"]
  let a2 : List String :=
    if c.resaveOk then
      ["Attempting simple PyMuPDF open+save repair.", "Saved intermediate repaired PDF"]
    else
      ["Attempting simple PyMuPDF open+save repair.",
       "Proceeding with original input due to resave failure."]
  let b := build_repaired_pdf c
  let e3 : List String := if b.ok then [] else ["Overall repair failed"]
  let d : ReportData :=
    { input_path := "input.pdf"
    , actions := a1 ++ a2 ++ b.acts
    , errors := e1 ++ e2 ++ b.errs ++ e3
    , pages := b.pages }
  { report := report_save c.reportWriteOk d
  , buildOk := b.ok
  , reportSaveCalled := true }

/-! ### Concrete sample inputs used by witnesses and counterexamples -/

/-- A healthy page with text `"Hello"`. -/
def pageHello : SrcPage := { getText := some "Hello" }

/-- A page whose text has surrounding whitespace: 7 characters raw, 5 after
stripping. -/
def pagePadded : SrcPage := { getText := some " Hello " }

/-- A page whose text extraction raises. -/
def pageNone : SrcPage := { getText := none }

/-- A page with no text whose rasterization also fails, so no output page can
be produced for it. -/
def pageNoTextBroken : SrcPage := { getText := none, pixmapOk := false }

/-- A no-text page whose OCR succeeds but yields a two-page document whose
pages both extract to empty text. -/
def pageOcrBlank2 : SrcPage := { getText := none, ocr := Except.ok [some "", some ""] }

/-- A no-text page whose OCR raises and whose rasterization fails as well. -/
def pageOcrDown : SrcPage :=
  { getText := none, ocr := Except.error "tesseract missing", pixmapOk := false }

/-- A no-text page whose OCR raises while every image-side engine call is
healthy. -/
def pageOcrDownRenderOk : SrcPage :=
  { getText := none, ocr := Except.error "tesseract missing" }

/-- A source metadata dictionary with every key absent. -/
def metaEmpty : PdfMeta :=
  { title := none, author := none, subject := none
  , keywords := none, creator := none, producer := none }

/-! ### Helper lemmas -/

/-- Every page appended by the no-OCR image insertion carries the current
iteration index. -/
theorem insert_image_page_srcIdx (i : Nat) (p : SrcPage) :
    ∀ pg ∈ (insert_image_page i p).1, pg.srcIdx = i := by
  unfold insert_image_page
  split_ifs <;> intro pg hpg <;> simp_all

/-- The OCR-failure fallback never appends a page. -/
theorem insert_image_fallback_fst (i : Nat) (p : SrcPage) :
    (insert_image_fallback i p).1 = [] := by
  unfold insert_image_fallback
  split_ifs <;> rfl

/-- Every page appended during iteration `i` carries source index `i`. -/
theorem insertPhase_srcIdx (u : Bool) (i : Nat) (p : SrcPage) (ir : InsertResult)
    (h : insertPhase u i p = some ir) : ∀ pg ∈ ir.delta, pg.srcIdx = i := by
  unfold insertPhase at h
  split at h
  · split at h
    · cases h
      intro pg hpg
      simp only [List.mem_singleton] at hpg
      subst hpg
      rfl
    · cases h
  · split at h
    · split at h
      next ts heq =>
        cases h
        intro pg hpg
        simp only [List.mem_map] at hpg
        obtain ⟨t, _, rfl⟩ := hpg
        rfl
      next e heq =>
        have hfst := insert_image_fallback_fst i p
        split at h
        next d hfb =>
          cases h
          intro pg hpg
          rw [hfb] at hfst
          simp only at hfst
          subst hfst
          simp at hpg
        next d e2 hfb =>
          cases h
          intro pg hpg
          rw [hfb] at hfst
          simp only at hfst
          subst hfst
          simp at hpg
        next d e2 hfb =>
          cases h
          intro pg hpg
          rw [hfb] at hfst
          simp only at hfst
          subst hfst
          simp at hpg
    · have hsrc := insert_image_page_srcIdx i p
      split at h
      next d hfb =>
        cases h
        intro pg hpg
        rw [hfb] at hsrc
        exact hsrc pg hpg
      next d e2 hfb =>
        cases h
        intro pg hpg
        rw [hfb] at hsrc
        exact hsrc pg hpg
      next d e2 hfb =>
        cases h
        intro pg hpg
        rw [hfb] at hsrc
        exact hsrc pg hpg

/-- The prune step leaves the document alone or deletes exactly its last
page. -/
theorem prunePhase_doc (r : Bool) (doc : List OutPage) (info : PageInfo) :
    (prunePhase r doc info).1 = doc ∨ (prunePhase r doc info).1 = doc.dropLast := by
  unfold prunePhase
  split
  · split
    · exact Or.inl rfl
    · split
      · split
        · exact Or.inr rfl
        · exact Or.inl rfl
      · exact Or.inl rfl
  · exact Or.inl rfl

/-- One loop iteration turns the document into `doc ++ delta` or
`(doc ++ delta).dropLast`, where every page of `delta` carries the current
iteration index. -/
theorem processPage_doc_cases (u r : Bool) (i : Nat) (p : SrcPage)
    (doc : List OutPage) :
    ∃ delta : List OutPage, (∀ pg ∈ delta, pg.srcIdx = i) ∧
      ((processPage u r i p doc).1 = doc ++ delta ∨
       (processPage u r i p doc).1 = (doc ++ delta).dropLast) := by
  cases heq : insertPhase u i p with
  | none =>
      refine ⟨[], by simp, Or.inl ?_⟩
      simp [processPage, heq]
  | some ir =>
      refine ⟨ir.delta, insertPhase_srcIdx u i p ir heq, ?_⟩
      have hpd := prunePhase_doc r (doc ++ ir.delta) ir.info
      rcases hp : prunePhase r (doc ++ ir.delta) ir.info with ⟨d2, oinfo, insp⟩
      rw [hp] at hpd
      cases oinfo <;> simpa [processPage, heq, hp] using hpd

/-- A list of pages all carrying the same source index is pairwise
non-decreasing in source index. -/
theorem pairwise_of_const {l : List OutPage} {i : Nat}
    (h : ∀ pg ∈ l, pg.srcIdx = i) :
    List.Pairwise (fun a b : OutPage => a.srcIdx ≤ b.srcIdx) l := by
  induction l with
  | nil => exact List.Pairwise.nil
  | cons a l ih =>
      refine List.Pairwise.cons ?_ (ih fun pg hpg => h pg (List.mem_cons_of_mem _ hpg))
      intro b hb
      rw [h a (List.mem_cons_self _ _), h b (List.mem_cons_of_mem _ hb)]

/-- Appending a block of pages with the current iteration index to a sorted
document with smaller indices keeps the document sorted. -/
theorem pairwise_le_append_block {doc delta : List OutPage} {i : Nat}
    (hdoc : List.Pairwise (fun a b : OutPage => a.srcIdx ≤ b.srcIdx) doc)
    (hlt : ∀ pg ∈ doc, pg.srcIdx < i)
    (hdelta : ∀ pg ∈ delta, pg.srcIdx = i) :
    List.Pairwise (fun a b : OutPage => a.srcIdx ≤ b.srcIdx) (doc ++ delta) := by
  rw [List.pairwise_append]
  refine ⟨hdoc, pairwise_of_const hdelta, ?_⟩
  intro a ha b hb
  rw [hdelta b hb]
  exact Nat.le_of_lt (hlt a ha)

/-- The per-page loop preserves sortedness of the output document by source
index, together with the bound that every present page comes from an already
processed iteration. -/
theorem buildLoop_sorted (u r : Bool) :
    ∀ (ps : List SrcPage) (i : Nat) (doc : List OutPage),
      List.Pairwise (fun a b : OutPage => a.srcIdx ≤ b.srcIdx) doc →
      (∀ pg ∈ doc, pg.srcIdx < i) →
      List.Pairwise (fun a b : OutPage => a.srcIdx ≤ b.srcIdx)
        (buildLoop u r i ps doc).1 := by
  intro ps
  induction ps with
  | nil =>
      intro i doc hp _
      simpa [buildLoop] using hp
  | cons p ps ih =>
      intro i doc hp hb
      obtain ⟨delta, hdelta, hcase⟩ := processPage_doc_cases u r i p doc
      have hpair1 : List.Pairwise (fun a b : OutPage => a.srcIdx ≤ b.srcIdx)
          (doc ++ delta) := pairwise_le_append_block hp hb hdelta
      have hbnd1 : ∀ pg ∈ doc ++ delta, pg.srcIdx < i + 1 := by
        intro pg hpg
        rcases List.mem_append.mp hpg with hmem | hmem
        · exact Nat.lt_succ_of_lt (hb pg hmem)
        · rw [hdelta pg hmem]; exact Nat.lt_succ_self i
      have hpair2 : List.Pairwise (fun a b : OutPage => a.srcIdx ≤ b.srcIdx)
          (processPage u r i p doc).1 := by
        rcases hcase with hc | hc <;> rw [hc]
        · exact hpair1
        · exact List.Pairwise.sublist (List.dropLast_sublist _) hpair1
      have hbnd2 : ∀ pg ∈ (processPage u r i p doc).1, pg.srcIdx < i + 1 := by
        rcases hcase with hc | hc <;> rw [hc]
        · exact hbnd1
        · intro pg hpg
          exact hbnd1 pg ((List.dropLast_sublist _).subset hpg)
      simpa [buildLoop] using ih (i + 1) (processPage u r i p doc).1 hpair2 hbnd2

/-- The loop produces exactly one `StepLog` per source page. -/
theorem buildLoop_length (u r : Bool) :
    ∀ (ps : List SrcPage) (i : Nat) (doc : List OutPage),
      ((buildLoop u r i ps doc).2).length = ps.length := by
  intro ps
  induction ps with
  | nil => intro i doc; rfl
  | cons p ps ih =>
      intro i doc
      simp [buildLoop, ih]

/-- With pruning disabled the prune step is the identity and keeps the
`page_info`. -/
theorem prunePhase_false (doc : List OutPage) (info : PageInfo) :
    prunePhase false doc info = (doc, some info, none) := rfl

/-- The insertion phase only escapes on the copied path, when `insert_pdf`
raises. -/
theorem insertPhase_isSome (u : Bool) (i : Nat) (p : SrcPage)
    (h : page_has_text p = true → p.insertPdfOk = true) :
    (insertPhase u i p).isSome = true := by
  unfold insertPhase
  split
  next hT =>
    rw [h hT]
    rfl
  next hT =>
    split
    · split
      · rfl
      · split <;> rfl
    · split <;> rfl

/-- With pruning disabled, an iteration records a `page_info` whenever
`insert_pdf` does not raise on its page. -/
theorem processPage_info_isSome (u : Bool) (i : Nat) (p : SrcPage)
    (doc : List OutPage) (h : page_has_text p = true → p.insertPdfOk = true) :
    ((processPage u false i p doc).2).info.isSome = true := by
  have hs := insertPhase_isSome u i p h
  cases heq : insertPhase u i p with
  | none => rw [heq] at hs; cases hs
  | some ir =>
      simp [processPage, heq, prunePhase_false]

/-- With pruning disabled and `insert_pdf` healthy on every text page, the
report holds exactly one page entry per source page. -/
theorem buildLoop_report_length (u : Bool) :
    ∀ (ps : List SrcPage) (i : Nat) (doc : List OutPage),
      (∀ p ∈ ps, page_has_text p = true → p.insertPdfOk = true) →
      (report_pages (buildLoop u false i ps doc).2).length = ps.length := by
  intro ps
  induction ps with
  | nil => intro i doc _; rfl
  | cons p ps ih =>
      intro i doc hall
      have h1 := processPage_info_isSome u i p doc
        (hall p (List.mem_cons_self _ _))
      obtain ⟨v, hv⟩ := Option.isSome_iff_exists.mp h1
      have ihlen := ih (i + 1) (processPage u false i p doc).1
        (fun q hq => hall q (List.mem_cons_of_mem _ hq))
      simp [buildLoop, report_pages, List.filterMap_cons, hv] at ihlen ⊢
      simpa [report_pages] using ihlen

/-- Shape of the OCR-failure fallback: it never appends a page and always ends
in a before-any-page error. -/
theorem insert_image_fallback_shape (i : Nat) (p : SrcPage) :
    ∃ msg, insert_image_fallback i p = ([], ImgOutcome.errNoPage msg) := by
  unfold insert_image_fallback
  split_ifs <;> exact ⟨_, rfl⟩

/-- A character list is `isEmpty = false` exactly when it is not `[]`. -/
theorem isEmpty_false_iff (l : List Char) : l.isEmpty = false ↔ l ≠ [] := by
  cases l <;> simp

/-! ### Claims -/

/-- C1 (corrected): the original claim says the prune step after iteration `i`
inspects and possibly removes only the page appended during iteration `i`.
That is false — see `C1_prune_counterexample`, where an iteration that appends
no page inspects and even removes a page appended by an earlier iteration.
What does hold, and what this theorem states: (a) the retained output pages
are always ordered monotonically by source page index — for `i < j` among
retained pages, the page derived from source `i` precedes the page derived
from source `j`; and (b) the prune step only ever touches the final position
of the output document (it leaves the document unchanged or deletes exactly
its last page). -/
theorem C1_page_order_invariant :
    (∀ (u r : Bool) (ps : List SrcPage),
      List.Pairwise (fun a b : OutPage => a.srcIdx ≤ b.srcIdx)
        (buildPages u r ps).1) ∧
    (∀ (r : Bool) (doc : List OutPage) (info : PageInfo),
      (prunePhase r doc info).1 = doc ∨
      (prunePhase r doc info).1 = doc.dropLast) := by
  constructor
  · intro u r ps
    refine buildLoop_sorted u r ps 0 [] List.Pairwise.nil ?_
    intro pg hpg
    cases hpg
  · exact prunePhase_doc

/-- Counterexample to C1 as stated.  Run with OCR on and pruning on, on two
pages: page 1 has no text and its OCR yields a two-page document whose pages
are both blank — both are appended, and the prune step of iteration 0 removes
only the second, leaving a blank page appended by iteration 0 in the output.
Page 2 has no text, its OCR raises and its rasterization fails, so iteration 1
appends nothing — yet its prune step inspects `new_doc[-1]`, which is the page
appended during iteration 0 (`inspected = some 0` in both logs), removes it
(final document `[]`), and records `removed_blank` on page 2's entry even
though the removed page came from page 1. -/
theorem C1_prune_counterexample :
    (buildPages true true [pageOcrBlank2, pageOcrDown]).1 = [] ∧
    ((buildPages true true [pageOcrBlank2, pageOcrDown]).2.map
      (fun l => l.inspected)) = [some 0, some 0] ∧
    ((buildPages true true [pageOcrBlank2, pageOcrDown]).2.map
      (fun l => l.info.map (fun pi => pi.removed_blank))) =
        [some true, some true] := by
  refine ⟨by decide, by decide, by decide⟩

/-- C2 (corrected): the original claim says exactly one `PageOutcome` is
recorded per source page even when a page's processing raises.  That is false
— see `C2_missing_entry_counterexample`: `report.add_page_entry` sits inside
the per-page `try`, so an exception that escapes the inner handlers (for
example the unguarded `new_doc[-1]` of the prune step on an empty output
document) is caught and logged, the loop continues, but no entry is recorded
for that page.  What holds: the report never has more entries than source
pages, and it has exactly one entry per source page whenever no exception
escapes to the per-page handler — in particular whenever pruning is disabled
and `insert_pdf` succeeds on every text page. -/
theorem C2_page_entry_count (u r : Bool) (ps : List SrcPage) :
    (report_pages (buildPages u r ps).2).length ≤ ps.length ∧
    (r = false → (∀ p ∈ ps, page_has_text p = true → p.insertPdfOk = true) →
      (report_pages (buildPages u r ps).2).length = ps.length) := by
  constructor
  · unfold report_pages
    calc (List.filterMap (fun l => l.info) (buildPages u r ps).2).length
        ≤ ((buildPages u r ps).2).length :=
          List.length_filterMap_le (fun l : StepLog => l.info) _
      _ = ps.length := buildLoop_length u r ps 0 []
  · intro hr hall
    subst hr
    exact buildLoop_report_length u ps 0 [] hall

/-- Witness for C2: a healthy one-page run without pruning records exactly one
page entry. -/
theorem C2_page_entry_count_witness :
    (report_pages (buildPages false false [pageHello]).2).length = 1 :=
  (C2_page_entry_count false false [pageHello]).2 rfl (by decide)

/-- Counterexample to C2 as stated: one source page, pruning enabled, no OCR,
text extraction raising and rasterization failing.  Nothing is appended, so
the prune step's `new_doc[-1]` raises on the empty document; the error is
caught by the per-page handler and the loop would continue — but the report
gets no entry for the page: `pages` is empty although the source has one
page. -/
theorem C2_missing_entry_counterexample :
    report_pages (buildPages false true [pageNoTextBroken]).2 = [] ∧
    [pageNoTextBroken].length = 1 := by
  refine ⟨by decide, rfl⟩

/-- C3 (corrected): a page classified as having text is copied verbatim into
the output (one page carrying the source page's text) and its entry records
decision `copied` — but the recorded character count is the length of the raw
extracted text, `len(page.get_text("text") or "")`, not of the trimmed text as
the claim states; see `C3_untrimmed_count_counterexample`. -/
theorem C3_copied_outcome (u : Bool) (i : Nat) (p : SrcPage)
    (h : page_has_text p = true) (h2 : p.insertPdfOk = true) :
    insertPhase u i p = some
      { delta := [{ srcIdx := i, kind := PageKind.copied, text := p.getText }]
      , info := { page_index := i + 1, action := "copied"
                , text_chars := some ((p.getText.getD "").length) }
      , errs := [] } := by
  simp [insertPhase, h, h2]

/-- Witness for C3: the page with text `"Hello"` is copied with 5 characters
recorded. -/
theorem C3_copied_outcome_witness :
    insertPhase false 0 pageHello = some
      { delta := [{ srcIdx := 0, kind := PageKind.copied, text := pageHello.getText }]
      , info := { page_index := 1, action := "copied"
                , text_chars := some ((pageHello.getText.getD "").length) }
      , errs := [] } :=
  C3_copied_outcome false 0 pageHello (by decide) (by decide)

/-- Counterexample to C3 as stated: a page whose extracted text is
`" Hello "` is classified as having text and copied, and the recorded
character count is 7 — the raw length — while the length after trimming
whitespace is 5. -/
theorem C3_untrimmed_count_counterexample :
    ((insertPhase false 0 pagePadded).map (fun ir => ir.info.text_chars)) =
      some (some 7) ∧
    (stripChars (pagePadded.getText.getD "").data).length = 5 := by
  refine ⟨by decide, by decide⟩

/-- C4 (code bug): on a no-text page with OCR enabled and the OCR step
failing, the claim (and the spec) say the raw-image fallback contributes a
rasterized page to the output whenever rasterization and insertion cooperate.
The code cannot do that: line 243 invokes `insert_image` on `new_doc`, a
`Document` — but `insert_image` is a method of `Page` (the no-OCR branch uses
it correctly on the page returned by `new_page` at line 256).  Attribute
lookup raises `AttributeError` before the argument expressions run, so the
fallback always fails before creating a page: no OCR-failure page ever
contributes output, every such outcome carries a fallback error, and
`fallback_image_inserted` (line 245) is dead code. -/
theorem C4_fallback_never_inserts (i : Nat) (p : SrcPage) (e : String)
    (hT : page_has_text p = false) (hO : p.ocr = Except.error e) :
    ∃ ir, insertPhase true i p = some ir ∧ ir.delta = [] ∧
      ir.info.fallback_error.isSome = true ∧
      ir.info.fallback_image_inserted = false := by
  obtain ⟨msg, hm⟩ := insert_image_fallback_shape i p
  refine ⟨{ delta := []
          , info := { page_index := i + 1, action := "no_text"
                    , ocr := some ("failed: " ++ e)
                    , fallback_error := some msg }
          , errs := ["OCR failed: " ++ e,
                     "fallback image insert failed: " ++ msg] }
        , ?_, rfl, rfl, rfl⟩
  simp [insertPhase, hT, hO, hm]

/-- Witness for C4: a no-text page with failing OCR and an otherwise healthy
engine still contributes no page and records a fallback error. -/
theorem C4_fallback_never_inserts_witness :
    ∃ ir, insertPhase true 0 pageOcrDownRenderOk = some ir ∧ ir.delta = [] ∧
      ir.info.fallback_error.isSome = true ∧
      ir.info.fallback_image_inserted = false :=
  C4_fallback_never_inserts 0 pageOcrDownRenderOk "tesseract missing"
    (by decide) rfl

/-- A string with a non-empty character list is non-empty. -/
theorem string_ne_empty_of_data {s : String} (h : s.data ≠ []) : s ≠ "" := by
  intro hc
  subst hc
  exact h rfl

/-- Appending a string with a non-empty character list yields a non-empty
string. -/
theorem append_ne_empty_right (a b : String) (hb : b.data ≠ []) : a ++ b ≠ "" := by
  intro hc
  have hd : (a ++ b).data = ("" : String).data := congrArg String.data hc
  rw [String.data_append] at hd
  have hnil : a.data ++ b.data = [] := by simpa using hd
  exact hb (List.append_eq_nil.mp hnil).2

/-- A truthy string is non-empty. -/
theorem truthyStr_ne_empty {a : Option String} {s : String}
    (h : truthyStr a = some s) : s ≠ "" := by
  cases a with
  | none => simp [truthyStr] at h
  | some t =>
      by_cases he : t.data.isEmpty = true
      · simp [truthyStr, he] at h
      · simp [truthyStr, he] at h
        subst h
        have hf : t.data.isEmpty = false := by
          cases hb : t.data.isEmpty
          · rfl
          · exact absurd hb he
        exact string_ne_empty_of_data ((isEmpty_false_iff _).mp hf)

/-- `x or dflt` with a non-empty default is non-empty. -/
theorem pyOr_ne_empty (a : Option String) (d : String) (hd : d ≠ "") :
    pyOr a d ≠ "" := by
  unfold pyOr
  cases ht : truthyStr a with
  | none => simpa using hd
  | some s => simpa using truthyStr_ne_empty ht

/-- If `x or dflt` is empty then `x` was falsy (absent or empty). -/
theorem pyOr_eq_empty (a : Option String) (d : String) (h : pyOr a d = "") :
    truthyStr a = none := by
  cases ht : truthyStr a with
  | none => rfl
  | some s =>
      unfold pyOr at h
      rw [ht] at h
      exact absurd h (truthyStr_ne_empty ht)

/-- C5 (corrected): the original claim says every metadata key resolves through
original value → alternate key → generated default to a non-empty value, so no
key with a viable source stays empty.  That is false for `subject`, `keywords`
and `producer`, whose final fallback in the code is the empty string — see
`C5_empty_subject_counterexample`.  What holds, and what this theorem states:
`title`, `author` and `creator` always resolve to non-empty values (their
generated defaults are non-empty, and `creator` additionally falls back to the
original `producer`); and a non-empty original value is never lost — `subject`
or `keywords` can only end empty when the original value was absent or empty,
and `producer` only when both original `producer` and `creator` were absent or
empty. -/
theorem C5_metadata_resolution (stem : String) (m : PdfMeta) :
    (meta_fixed stem m).title ≠ "" ∧
    (meta_fixed stem m).author ≠ "" ∧
    (meta_fixed stem m).creator ≠ "" ∧
    ((meta_fixed stem m).subject = "" → truthyStr m.subject = none) ∧
    ((meta_fixed stem m).keywords = "" → truthyStr m.keywords = none) ∧
    ((meta_fixed stem m).producer = "" →
      truthyStr m.producer = none ∧ truthyStr m.creator = none) := by
  refine ⟨?_, ?_, ?_, ?_, ?_, ?_⟩
  · exact pyOr_ne_empty _ _ (append_ne_empty_right stem " (repaired)" (by decide))
  · exact pyOr_ne_empty _ _ (by decide)
  · exact pyOr_ne_empty _ _ (pyOr_ne_empty _ _ (by decide))
  · exact fun h => pyOr_eq_empty _ _ h
  · exact fun h => pyOr_eq_empty _ _ h
  · intro h
    have h1 : truthyStr m.producer = none := pyOr_eq_empty _ _ h
    refine ⟨h1, ?_⟩
    have h2 : pyOr m.creator "" = "" := by
      have : pyOr m.producer (pyOr m.creator "") = "" := h
      unfold pyOr at this
      rw [h1] at this
      simpa using this
    exact pyOr_eq_empty _ _ h2

/-- Witness for C5: with every source key absent, the generated title is
non-empty, and the empty resolved subject indeed comes from a falsy
original. -/
theorem C5_metadata_resolution_witness :
    (meta_fixed "doc" metaEmpty).title ≠ "" ∧
    truthyStr metaEmpty.subject = none :=
  ⟨(C5_metadata_resolution "doc" metaEmpty).1,
   (C5_metadata_resolution "doc" metaEmpty).2.2.2.1 (by decide)⟩

/-- Counterexample to C5 as stated: with every original key absent, `title`,
`author` and `creator` receive generated defaults, but `subject`, `keywords`
and `producer` resolve to the empty string — no generated default exists for
them, contradicting the claimed fallback-to-default for every key. -/
theorem C5_empty_subject_counterexample :
    (meta_fixed "doc" metaEmpty).subject = "" ∧
    (meta_fixed "doc" metaEmpty).keywords = "" ∧
    (meta_fixed "doc" metaEmpty).producer = "" ∧
    (meta_fixed "doc" metaEmpty).title = "doc (repaired)" ∧
    (meta_fixed "doc" metaEmpty).creator = "pdf_repair.py" := by
  refine ⟨by decide, by decide, by decide, by decide, by decide⟩

/-- C6 (confirmed): the classifier returns `True` iff text extraction returns
a string that is non-empty after stripping whitespace, and an extraction
failure yields `False` rather than propagating. -/
theorem C6_classifier_spec (p : SrcPage) :
    (page_has_text p = true ↔
      ∃ t, p.getText = some t ∧ stripChars t.data ≠ []) ∧
    (p.getText = none → page_has_text p = false) := by
  constructor
  · constructor
    · intro h
      cases hg : p.getText with
      | none => simp [page_has_text, hg] at h
      | some t =>
          refine ⟨t, rfl, ?_⟩
          simp [page_has_text, hg, Bool.and_eq_true] at h
          exact h.2
    · rintro ⟨t, hg, hne⟩
      have hdata : t.data ≠ [] := by
        intro hc
        apply hne
        show stripChars t.data = []
        rw [hc]
        rfl
      simp [page_has_text, hg, Bool.and_eq_true]
      exact ⟨hdata, hne⟩
  · intro hg
    simp [page_has_text, hg]

/-- Witness for C6: a page with padded text classifies as having text; a page
whose extraction raises classifies as having none. -/
theorem C6_classifier_spec_witness :
    page_has_text pagePadded = true ∧ page_has_text pageNone = false :=
  ⟨(C6_classifier_spec pagePadded).1.mpr ⟨" Hello ", rfl, by decide⟩,
   (C6_classifier_spec pageNone).2 rfl⟩

/-- A run whose final `new_doc.save` fails while everything else is healthy. -/
def cfgSaveFail : MainCfg :=
  { use_ocr := false, remove_blank := false, srcPages := [pageHello]
  , meta := metaEmpty, stem := "doc", backupOk := true, resaveOk := true
  , openOk := true, setMetaOk := true, finalSaveOk := false
  , reportWriteOk := true }

/-- A run whose backup copy fails while everything else is healthy. -/
def cfgBackupFail : MainCfg :=
  { use_ocr := false, remove_blank := false, srcPages := [pageHello]
  , meta := metaEmpty, stem := "doc", backupOk := false, resaveOk := true
  , openOk := true, setMetaOk := true, finalSaveOk := true
  , reportWriteOk := true }

/-- C7 (confirmed): when the final save of the output document fails, the run
ends failed — `build_repaired_pdf` logs the save error and re-raises, and
`main` catches it and records the overall failure — yet the `report.save` call
site is still reached, and when the report write itself is healthy the report
is written; a serialization failure never prevents the report from being
flushed. -/
theorem C7_save_failure_flushes_report (c : MainCfg)
    (ho : c.openOk = true) (hs : c.finalSaveOk = false) :
    (main c).buildOk = false ∧
    "Failed saving final PDF" ∈ (main c).report.errors ∧
    "Overall repair failed" ∈ (main c).report.errors ∧
    (main c).reportSaveCalled = true ∧
    (c.reportWriteOk = true → "Saved JSON report" ∈ (main c).report.actions) := by
  cases hw : c.reportWriteOk <;>
    simp [main, build_repaired_pdf, report_save, ho, hs, hw]

/-- Witness for C7 on a concrete failing-save run. -/
theorem C7_save_failure_flushes_report_witness :
    (main cfgSaveFail).buildOk = false ∧
    "Failed saving final PDF" ∈ (main cfgSaveFail).report.errors ∧
    "Overall repair failed" ∈ (main cfgSaveFail).report.errors ∧
    (main cfgSaveFail).reportSaveCalled = true ∧
    (cfgSaveFail.reportWriteOk = true →
      "Saved JSON report" ∈ (main cfgSaveFail).report.actions) :=
  C7_save_failure_flushes_report cfgSaveFail rfl rfl

/-- An output document whose single page was produced by OCR at iteration 0
and whose text extraction raises. -/
def docOcrNone : List OutPage := [{ srcIdx := 0, kind := PageKind.ocrPage, text := none }]

/-- A page entry as it stands before the prune step of some no-text page. -/
def infoSample : PageInfo := { page_index := 1, action := "no_text" }

/-- C8 (confirmed): when pruning is enabled and extracting text from the
inspected last page raises, the inner handler keeps the page: the document is
returned unchanged and the `page_info` is recorded as it was, without a
`removed_blank` flag. -/
theorem C8_prune_keeps_on_extraction_failure (doc : List OutPage)
    (info : PageInfo) (lp : OutPage)
    (hl : doc.getLast? = some lp) (ht : lp.text = none) :
    prunePhase true doc info = (doc, some info, some lp.srcIdx) := by
  simp [prunePhase, hl, ht]

/-- Witness for C8 on a concrete one-page document whose last page's text
extraction raises. -/
theorem C8_prune_keeps_on_extraction_failure_witness :
    prunePhase true docOcrNone infoSample = (docOcrNone, some infoSample, some 0) :=
  C8_prune_keeps_on_extraction_failure docOcrNone infoSample
    { srcIdx := 0, kind := PageKind.ocrPage, text := none } rfl rfl

/-- C9 (confirmed): `RepairReport.save` is total — its body sits inside a
`try/except Exception` that only prints — and a failing write leaves the
accumulated report data exactly as it was. -/
theorem C9_report_save_failure_harmless (d : ReportData) :
    report_save false d = d := rfl

/-- C10 (confirmed): a failing backup copy is caught in `main` and recorded as
an error, and the pipeline still runs: the pre-repair resave is attempted, the
per-page rebuild is entered (its opening action is logged), and the report
save call site is reached. -/
theorem C10_backup_failure_nonfatal (c : MainCfg) (hb : c.backupOk = false) :
    "Backup failed" ∈ (main c).report.errors ∧
    "Attempting simple PyMuPDF open+save repair." ∈ (main c).report.actions ∧
    "Opening source PDF" ∈ (main c).report.actions ∧
    (main c).reportSaveCalled = true := by
  cases hr : c.resaveOk <;> cases hoo : c.openOk <;> cases hw : c.reportWriteOk <;>
    simp [main, build_repaired_pdf, report_save, hb, hr, hoo, hw]

/-- Witness for C10 on a concrete failing-backup run. -/
theorem C10_backup_failure_nonfatal_witness :
    "Backup failed" ∈ (main cfgBackupFail).report.errors ∧
    "Attempting simple PyMuPDF open+save repair." ∈ (main cfgBackupFail).report.actions ∧
    "Opening source PDF" ∈ (main cfgBackupFail).report.actions ∧
    (main cfgBackupFail).reportSaveCalled = true :=
  C10_backup_failure_nonfatal cfgBackupFail rfl

end PdfRepair
